import Mathlib

/-!
Shallow embedding of the defect-extraction pipeline of `app.py` (and the
simplified aggregator of `app_simple.py`) of the building-defect-detector
repository, together with proofs of the behavioural claims about it.

Conventions of the embedding:
* Python strings are modelled as `List Char` (`Str`); `str.lower` is a
  character-wise `Char.toLower`, which agrees with Python on the ASCII
  texts the keyword tables and test scenarios use.
* Python floats are modelled as exact rationals (`ℚ`); every constant the
  scorer adds is an exact decimal, so the rational model is the intended
  arithmetic of the code.
* Python dicts that are built by insertion are modelled as association
  lists in insertion order; a Python `set` that is only ever queried via
  membership is modelled as a list of its elements.
* Indexing a dict at a missing key raises in Python; functions that can do
  so are modelled with `Option`, `none` standing for the raised `KeyError`.
* The regular expressions of the source are hand-compiled to matchers
  (`M := List Char → Option (List Char)`, returning the unconsumed rest);
  `re.search` keeps Python semantics: leftmost position first, and at a
  given position the alternatives of an alternation are tried in order.
-/

abbrev Str := List Char

def lit (s : String) : Str := s.toList

def lower (s : Str) : Str := s.map Char.toLower

/-- Prefix test `startsWith needle hay`: is `needle` a prefix of `hay`? -/
def startsWith : Str → Str → Bool
  | [], _ => true
  | _ :: _, [] => false
  | a :: as, b :: bs => a == b && startsWith as bs

/-- Python's `needle in hay` substring test. -/
def containsSub (hay needle : Str) : Bool :=
  match hay with
  | [] => needle.isEmpty
  | _ :: rest => startsWith needle hay || containsSub rest needle

/-- Characters matched by `\s` (Python's default whitespace set, ASCII part). -/
def isSpaceC (c : Char) : Bool :=
  c == ' ' || c == '\t' || c == '\n' || c == '\r' || c == '\x0b' || c == '\x0c'

/-- Python's `str.strip()`. -/
def pyStrip (s : Str) : Str :=
  ((s.dropWhile isSpaceC).reverse.dropWhile isSpaceC).reverse

def isDigitC (c : Char) : Bool := '0' ≤ c && c ≤ '9'

def isLowerAZ (c : Char) : Bool := 'a' ≤ c && c ≤ 'z'

/-! ### The keyword tables of `app.py` -/

def DEFECT_CATEGORIES : List (String × List String) :=
  [("structural", ["crack", "fracture", "settlement", "foundation", "beam", "column", "wall damage", "structural damage", "subsidence", "structural failure", "load bearing", "foundation crack"]),
   ("moisture", ["damp", "moisture", "leak", "water damage", "mold", "mould", "condensation", "wet rot", "dry rot", "water ingress", "humidity", "moisture content"]),
   ("electrical", ["wiring", "electrical", "socket", "switch", "circuit breaker", "fuse", "power", "electrical fault", "electrical hazard", "short circuit", "electrical panel"]),
   ("plumbing", ["pipe", "plumbing", "drain", "toilet", "sink", "water pressure", "blockage", "tap", "water supply", "drainage", "plumbing leak"]),
   ("roofing", ["roof", "tile", "gutter", "chimney", "flashing", "roof leak", "roof damage", "slate", "roof membrane", "downspout", "roof structure"]),
   ("hvac", ["heating", "ventilation", "air conditioning", "hvac", "boiler", "radiator", "vent", "ahu", "air handler", "hvac system", "climate control"]),
   ("insulation", ["insulation", "thermal", "cold spot", "draft", "energy efficiency", "heat loss", "thermal bridge", "insulation gap", "thermal performance"]),
   ("pest", ["pest", "infestation", "termite", "rodent", "insect", "woodworm", "beetle", "pest control", "pest damage", "infestation evidence"]),
   ("safety", ["safety hazard", "dangerous", "asbestos", "lead paint", "fire safety", "emergency exit", "safety risk", "hazardous material", "safety concern", "urgent risk"]),
   ("cosmetic", ["paint", "decoration", "cosmetic", "appearance", "finish", "surface", "aesthetic", "painting", "decorative", "visual"])]

def SEVERITY_KEYWORDS : List (String × List String) :=
  [("critical", ["urgent risk", "immediate danger", "critical", "dangerous", "severe", "major structural", "safety risk", "structural failure", "immediate attention", "emergency"]),
   ("high", ["significant", "major", "serious", "extensive", "widespread", "important", "substantial", "considerable", "notable"]),
   ("medium", ["moderate", "noticeable", "minor structural", "visible", "needs attention", "attention required", "should be addressed"]),
   ("low", ["minor", "cosmetic", "superficial", "small", "slight", "minimal", "aesthetic", "non-critical"])]

/-- Python's `DEFECT_CATEGORIES.get(category, [])`. -/
def categoryKeywords (category : String) : List String :=
  match DEFECT_CATEGORIES.find? (fun ck => ck.1 == category) with
  | some ck => ck.2
  | none => []

/-! ### `determine_severity` (app.py lines 482-514) -/

/-- Number of keywords of `kws` that occur (as substrings) in `s`:
the tally the nested `for severity / for keyword` loop accumulates. -/
def score_for (s : Str) (kws : List String) : Nat :=
  (kws.filter (fun kw => containsSub s (lit kw))).length

def critical_indicators : List String :=
  ["urgent risk", "immediate danger", "safety hazard", "structural failure"]

/-- The function `determine_severity`: tally keyword matches per label, add the +2
critical-indicator bonus, return `'medium'` when every tally is zero, and
otherwise the first label (in dict insertion order critical, high, medium,
low) whose tally equals the maximum.  The trailing `return 'medium'` of the
source is the unreachable `| none` branch of `find?`. -/
def determine_severity (sentence : Str) : String :=
  let s := lower sentence
  let base := SEVERITY_KEYWORDS.map (fun sk => (sk.1, score_for s sk.2))
  let bonus := if critical_indicators.any (fun ind => containsSub s (lit ind)) then 2 else 0
  let scores := base.map (fun ls => if ls.1 == "critical" then (ls.1, ls.2 + bonus) else ls)
  let maxScore := (scores.map (fun ls => ls.2)).foldr max 0
  if maxScore == 0 then "medium"
  else
    match scores.find? (fun ls => ls.2 == maxScore) with
    | some ls => ls.1
    | none => "medium"

/-! ### Hand-compiled regular-expression matchers

`M` consumes a prefix of the input at a fixed position and returns the
unconsumed rest.  The patterns of the source contain only literals, `\d+`,
`[a-z]?`, `s?`, `\s+`, `\s*` and alternation, and nothing ever follows a
greedy repetition that could require backtracking, so greedy matching
without backtracking is exact. -/

def M := Str → Option Str

/-- Literal text. -/
def mLit (kw : String) : M := fun cs =>
  if startsWith (lit kw) cs then some (cs.drop (lit kw).length) else none

/-- Matcher for `\d+` (greedy). -/
def mDigits : M := fun cs =>
  if (cs.takeWhile isDigitC).isEmpty then none else some (cs.dropWhile isDigitC)

/-- Matcher for `[a-z]?` (greedy). -/
def mOptLower : M := fun cs =>
  match cs with
  | c :: rest => if isLowerAZ c then some rest else some cs
  | [] => some cs

/-- An optional literal such as the `s?` of `degrees?` (greedy). -/
def mOptLit (kw : String) : M := fun cs =>
  if startsWith (lit kw) cs then some (cs.drop (lit kw).length) else some cs

/-- Matcher for `\s+` (greedy). -/
def mWs1 : M := fun cs =>
  if (cs.takeWhile isSpaceC).isEmpty then none else some (cs.dropWhile isSpaceC)

/-- Matcher for `\s*` (greedy). -/
def mWs0 : M := fun cs => some (cs.dropWhile isSpaceC)

/-- Sequencing of matchers. -/
def mSeq : List M → M
  | [], cs => some cs
  | m :: ms, cs =>
    match m cs with
    | some rest => mSeq ms rest
    | none => none

/-- Alternation: first alternative that matches at this position wins. -/
def mAlt : List M → M
  | [], _ => none
  | m :: ms, cs =>
    match m cs with
    | some rest => some rest
    | none => mAlt ms cs

def mAltLits (alts : List String) : M := mAlt (alts.map mLit)

/-- Capture the text a matcher consumed at this position. -/
def runCap (m : M) (cs : Str) : Option Str :=
  (m cs).map (fun rest => cs.take (cs.length - rest.length))

/-- Capture group 1 (`g1`) when the whole pattern is `g1` followed by
`tail`, as in `(north|south|east|west)\s+(wall|side|elevation|facade)`. -/
def runCap2 (g1 tail : M) (cs : Str) : Option Str :=
  match g1 cs with
  | none => none
  | some rest1 =>
    match tail rest1 with
    | none => none
    | some _ => some (cs.take (cs.length - rest1.length))

/-- Python's `re.search` for a capturing pattern: try each position left to right. -/
def searchPat (p : Str → Option Str) : Str → Option Str
  | [] => p []
  | c :: rest =>
    match p (c :: rest) with
    | some g => some g
    | none => searchPat p rest

/-- Boolean `re.search` (match-or-not). -/
def searchB (m : M) : Str → Bool
  | [] => (m []).isSome
  | c :: rest => (m (c :: rest)).isSome || searchB m rest

/-! ### `extract_location_enhanced` (app.py lines 444-480) -/

/-- Pattern `r'(basement room \d+|room \d+[a-z]?|bedroom \d+|bathroom \d+)'` -/
def locPat1 : Str → Option Str :=
  runCap (mAlt [mSeq [mLit "basement room ", mDigits],
                mSeq [mLit "room ", mDigits, mOptLower],
                mSeq [mLit "bedroom ", mDigits],
                mSeq [mLit "bathroom ", mDigits]])

/-- Pattern `r'(corridor \d+[a-z]?|hallway \d+[a-z]?|office \d+[a-z]?)'` -/
def locPat2 : Str → Option Str :=
  runCap (mAlt [mSeq [mLit "corridor ", mDigits, mOptLower],
                mSeq [mLit "hallway ", mDigits, mOptLower],
                mSeq [mLit "office ", mDigits, mOptLower]])

/-- Pattern `r'(unit \d+[a-z]?|apartment \d+[a-z]?|suite \d+[a-z]?)'` -/
def locPat3 : Str → Option Str :=
  runCap (mAlt [mSeq [mLit "unit ", mDigits, mOptLower],
                mSeq [mLit "apartment ", mDigits, mOptLower],
                mSeq [mLit "suite ", mDigits, mOptLower]])

/-- Pattern `r'(rooftop ahu \d+|ahu \d+|boiler room|mechanical room)'` -/
def locPat4 : Str → Option Str :=
  runCap (mAlt [mSeq [mLit "rooftop ahu ", mDigits],
                mSeq [mLit "ahu ", mDigits],
                mLit "boiler room", mLit "mechanical room"])

/-- Pattern `r'(electrical room|server room|storage room)'` -/
def locPat5 : Str → Option Str :=
  runCap (mAltLits ["electrical room", "server room", "storage room"])

/-- Pattern `r'(kitchen|bathroom|bedroom|living room|basement|attic|garage)'` -/
def locPat6 : Str → Option Str :=
  runCap (mAltLits ["kitchen", "bathroom", "bedroom", "living room", "basement", "attic", "garage"])

/-- Pattern `r'(lobby|entrance|stairwell|elevator|parking)'` -/
def locPat7 : Str → Option Str :=
  runCap (mAltLits ["lobby", "entrance", "stairwell", "elevator", "parking"])

/-- Pattern `r'(ground floor|first floor|second floor|third floor|\d+(st|nd|rd|th) floor)'` -/
def locPat8 : Str → Option Str :=
  runCap (mAlt [mLit "ground floor", mLit "first floor", mLit "second floor",
                mLit "third floor",
                mSeq [mDigits, mAltLits ["st", "nd", "rd", "th"], mLit " floor"]])

/-- Pattern `r'(north|south|east|west)\s+(wall|side|elevation|facade)'` -/
def locPat9 : Str → Option Str :=
  runCap2 (mAltLits ["north", "south", "east", "west"])
          (mSeq [mWs1, mAltLits ["wall", "side", "elevation", "facade"]])

/-- Pattern `r'(front|back|rear)\s+(wall|elevation|entrance)'` -/
def locPat10 : Str → Option Str :=
  runCap2 (mAltLits ["front", "back", "rear"])
          (mSeq [mWs1, mAltLits ["wall", "elevation", "entrance"]])

/-- Pattern `r'(exterior|interior)\s+(wall|surface)'` -/
def locPat11 : Str → Option Str :=
  runCap2 (mAltLits ["exterior", "interior"]) (mSeq [mWs1, mAltLits ["wall", "surface"]])

/-- Pattern `r'(roof|ceiling|floor|wall|foundation|basement)'` -/
def locPat12 : Str → Option Str :=
  runCap (mAltLits ["roof", "ceiling", "floor", "wall", "foundation", "basement"])

def location_patterns : List (Str → Option Str) :=
  [locPat1, locPat2, locPat3, locPat4, locPat5, locPat6,
   locPat7, locPat8, locPat9, locPat10, locPat11, locPat12]

/-- Python's `str.title()`: the first letter of each alphabetic run is
uppercased, the following letters lowercased. -/
def titleGo (prevAlpha : Bool) : Str → Str
  | [] => []
  | c :: rest =>
    if c.isAlpha then
      (if prevAlpha then c.toLower else c.toUpper) :: titleGo true rest
    else
      c :: titleGo false rest

def titleCase (s : Str) : Str := titleGo false s

/-- The function `extract_location_enhanced`: first pattern (in the fixed order) whose
search succeeds gives `match.group(1).title()`; otherwise "Unspecified". -/
def extract_location_enhanced (sentence : Str) : Str :=
  let s := lower sentence
  match location_patterns.findSome? (fun p => searchPat p s) with
  | some g => titleCase g
  | none => lit "Unspecified"

/-! ### `calculate_confidence_enhanced` (app.py lines 516-544) -/

/-- Pattern `r'\d+\s*(mm|cm|m|inch|inches|feet|ft|%|degrees?|°)'` as a boolean search. -/
def measurement_pat : M :=
  mSeq [mDigits, mWs0,
        mAlt [mLit "mm", mLit "cm", mLit "m", mLit "inch", mLit "inches",
              mLit "feet", mLit "ft", mLit "%",
              mSeq [mLit "degree", mOptLit "s"], mLit "°"]]

def action_words : List String :=
  ["damaged", "broken", "cracked", "leaking", "failing", "deteriorated"]

set_option linter.unusedVariables false in
/-- The function `calculate_confidence_enhanced(sentence, keyword, category)`.  The
`keyword` argument appears in the signature but is never read by the body;
the density factor recounts the whole category keyword list. -/
def calculate_confidence_enhanced (sentence : Str) (keyword : String) (category : String) : ℚ :=
  let confidence : ℚ := 2/5
  let category_keywords := categoryKeywords category
  let keyword_count := (category_keywords.filter (fun kw => containsSub sentence (lit kw))).length
  let c1 := confidence + min ((keyword_count : ℚ) * (8/100)) (25/100)
  let c2 := c1 + (if SEVERITY_KEYWORDS.any
      (fun sk => sk.2.any (fun sev_kw => containsSub sentence (lit sev_kw)))
    then 12/100 else 0)
  let c3 := c2 + (if searchB measurement_pat sentence then 10/100 else 0)
  let c4 := c3 + (if action_words.any (fun w => containsSub sentence (lit w)) then 15/100 else 0)
  let c5 := c4 + (if ¬ (containsSub (lower (extract_location_enhanced sentence)) (lit "unspecified")) then 8/100 else 0)
  min c5 (95/100)

/-! ### The Defect record and the per-sentence classifier
(`detect_defects_rule_based`, app.py lines 349-405) -/

structure Defect where
  category : String
  severity : String
  description : Str
  location : Str
  confidence : ℚ
  keyword_matched : String
deriving DecidableEq, Repr

/-- The inner `for keyword in keywords` loop for one category: on a
substring match, build severity, location and confidence; `continue` past
the keyword when the confidence is below 0.4, otherwise emit the defect and
`break`.  `s` is the stripped sentence in original case. -/
def scanKeywords (s : Str) (category : String) : List String → Option Defect
  | [] => none
  | kw :: rest =>
    if containsSub (lower s) (lit kw) then
      let severity := determine_severity (lower s)
      let location := extract_location_enhanced s
      let confidence := calculate_confidence_enhanced (lower s) kw category
      if confidence < 2/5 then scanKeywords s category rest
      else some ⟨category, severity, s, location, confidence, kw⟩
    else scanKeywords s category rest

/-- The `for category, keywords in DEFECT_CATEGORIES.items()` loop for one
sentence: each category contributes its first emitted candidate, if any. -/
def classifySentence (s : Str) : List Defect :=
  DEFECT_CATEGORIES.filterMap (fun ck => scanKeywords s ck.1 ck.2)

/-! ### `filter_summary_sections` (app.py lines 407-442) -/

def skip_patterns : List M :=
  [mSeq [mLit "🧠", mWs0, mAltLits ["what to expect", "ai", "detector"]],
   mSeq [mLit "✅", mWs0, mAltLits ["what it did well", "areas"]],
   mSeq [mLit "⚠️", mWs0, mAltLits ["areas that need"]],
   mSeq [mLit "📊", mWs0, mAltLits ["analytics", "dashboard"]],
   mSeq [mLit "🏁", mWs0, mAltLits ["verdict", "conclusion"]],
   mSeq [mLit "📈", mWs0, mAltLits ["overall evaluation", "metric"]],
   mLit "would you like me to",
   mLit "ask chatgpt",
   mLit "this result is",
   mLit "with slight refinements"]

/-- Python's `text.split('\n')` (single-character separator, empties kept). -/
def splitNl : Str → List Str
  | [] => [[]]
  | c :: rest =>
    if c == '\n' then [] :: splitNl rest
    else
      match splitNl rest with
      | s :: ss => (c :: s) :: ss
      | [] => [[c]]

/-- The function `filter_summary_sections`: drop every line whose lowered, stripped text
matches a skip pattern or is shorter than 10 characters; re-join with
newlines. -/
def filter_summary_sections (text : Str) : Str :=
  let lines := splitNl text
  let filtered_lines := lines.filter (fun line =>
    let line_lower := pyStrip (lower line)
    ¬ (skip_patterns.any (fun p => searchB p line_lower)) ∧ ¬ (line_lower.length < 10))
  (filtered_lines.intersperse (lit "\n")).flatten

/-! ### Sentence segmentation: `re.split(r'[.!?]+', text)` -/

def isTermC (c : Char) : Bool := c == '.' || c == '!' || c == '?'

mutual
/-- Accumulate the current segment until a terminator run starts. -/
def splitTermGo (cur : Str) : Str → List Str
  | [] => [cur.reverse]
  | c :: rest =>
    if isTermC c then cur.reverse :: splitTermSkip rest
    else splitTermGo (c :: cur) rest

/-- Skip the rest of a terminator run, then start the next segment. -/
def splitTermSkip : Str → List Str
  | [] => [[]]
  | c :: rest => if isTermC c then splitTermSkip rest else splitTermGo [c] rest
end

/-- Python's `re.split(r'[.!?]+', text)`: segments between maximal terminator runs,
empty edge segments kept, as in Python. -/
def splitSentences (text : Str) : List Str := splitTermGo [] text

/-! ### The sentence loop of `detect_defects_rule_based` -/

/-- The `for sentence in sentences` loop: strip, drop sentences shorter
than 15 characters, skip a sentence whose lowered 50-character key was
already processed, otherwise record the key and classify. -/
def processSentences (processed : List Str) : List Str → List Defect
  | [] => []
  | sentence :: rest =>
    let s := pyStrip sentence
    if s.length < 15 then processSentences processed rest
    else
      let sentence_key := (lower s).take 50
      if processed.contains sentence_key then processSentences processed rest
      else classifySentence s ++ processSentences (sentence_key :: processed) rest

/-! ### `normalize_description` / `calculate_similarity` / `deduplicate_defects`
(app.py lines 546-595) -/

/-- Python's `string.punctuation`. -/
def punctuationChars : Str := lit "!\"#$%&\x27()*+,-./:;<=>?@[\\]^_\x60\x7b|\x7d~"

def dedup_stopwords : List String :=
  ["the", "a", "an", "and", "or", "but", "in", "on", "at", "to", "for", "of",
   "with", "by", "is", "are", "was", "were"]

mutual
/-- Accumulate a whitespace-free word. -/
def splitWsGo (cur : Str) : Str → List Str
  | [] => [cur.reverse]
  | c :: rest =>
    if isSpaceC c then cur.reverse :: splitWsSkip rest
    else splitWsGo (c :: cur) rest

/-- Skip a whitespace run; no empty words are produced. -/
def splitWsSkip : Str → List Str
  | [] => []
  | c :: rest => if isSpaceC c then splitWsSkip rest else splitWsGo [c] rest
end

/-- Python's `str.split()` (split on whitespace runs, no empty words). -/
def splitWs (s : Str) : List Str := splitWsSkip s

/-- Strict code-point lexicographic order on words, as Python `sorted` uses. -/
def strLt : Str → Str → Bool
  | [], [] => false
  | [], _ :: _ => true
  | _ :: _, [] => false
  | a :: as, b :: bs => if a < b then true else if b < a then false else strLt as bs

def insertSorted (w : Str) : List Str → List Str
  | [] => [w]
  | x :: xs => if strLt x w then x :: insertSorted w xs else w :: x :: xs

/-- Stable ascending sort (Python's `sorted`). -/
def sortWords : List Str → List Str
  | [] => []
  | w :: ws => insertSorted w (sortWords ws)

/-- The function `normalize_description`: lowercase, strip punctuation, drop stopwords,
sort the remaining words and re-join them with single spaces. -/
def normalize_description (description : Str) : Str :=
  let desc := lower description
  let desc2 := desc.filter (fun c => !(punctuationChars.contains c))
  let words := (splitWs desc2).filter (fun w => !((dedup_stopwords.map lit).contains w))
  ((sortWords words).intersperse (lit " ")).flatten

/-- The function `calculate_similarity`: Jaccard similarity of the word sets, with the
source's convention that two empty sets are fully similar (1.0). -/
def calculate_similarity (str1 str2 : Str) : ℚ :=
  let words1 := (splitWs str1).dedup
  let words2 := (splitWs str2).dedup
  if words1.isEmpty && words2.isEmpty then 1
  else
    let intersection := words1.filter (fun w => words2.contains w)
    let union := words1 ++ words2.filter (fun w => !(words1.contains w))
    if union.isEmpty then 0
    else (intersection.length : ℚ) / (union.length : ℚ)

/-- The accept/reject loop of `deduplicate_defects`; `seen` holds the
normalized keys of the defects accepted so far (the Python `set` is only
queried through the `any` test, so a list models it). -/
def dedupGo (seen : List Str) : List Defect → List Defect
  | [] => []
  | defect :: rest =>
    let desc_key := normalize_description defect.description
    if seen.any (fun seen_desc => calculate_similarity desc_key seen_desc > 8/10) then
      dedupGo seen rest
    else defect :: dedupGo (desc_key :: seen) rest

def deduplicate_defects (defects : List Defect) : List Defect :=
  if defects.isEmpty then defects else dedupGo [] defects

/-- The function `detect_defects_rule_based`: filter boilerplate, split into sentences,
classify each surviving sentence, then deduplicate. -/
def detect_defects_rule_based (text : Str) : List Defect :=
  deduplicate_defects (processSentences [] (splitSentences (filter_summary_sections text)))

/-! ### `analyze_defects` / `generate_recommendations` (app.py lines 597-664) -/

structure AnalysisResult where
  total_defects : Nat
  category_distribution : List (String × Nat)
  severity_distribution : List (String × Nat)
  priority_defects : List Defect
  recommendations : List String
deriving DecidableEq, Repr

/-- Python's `d.get(k, 0)` on an insertion-ordered dict. -/
def dictGet (k : String) (d : List (String × Nat)) : Nat :=
  match d.find? (fun kv => kv.1 == k) with
  | some kv => kv.2
  | none => 0

/-- The update `category_dist[category] = category_dist.get(category, 0) + 1`:
increment in place, or append a fresh key at the end. -/
def bumpOrInsert (k : String) : List (String × Nat) → List (String × Nat)
  | [] => [(k, 1)]
  | kv :: rest => if kv.1 == k then (kv.1, kv.2 + 1) :: rest else kv :: bumpOrInsert k rest

/-- The update `severity_dist[severity] += 1`; `none` models the `KeyError` Python
raises when the key is absent. -/
def bumpKey (k : String) : List (String × Nat) → Option (List (String × Nat))
  | [] => none
  | kv :: rest =>
    if kv.1 == k then some ((kv.1, kv.2 + 1) :: rest)
    else (bumpKey k rest).map (fun r => kv :: r)

def initial_severity_dist : List (String × Nat) :=
  [("low", 0), ("medium", 0), ("high", 0), ("critical", 0)]

/-- The `for defect in defects` tally loop of `analyze_defects`. -/
def tallyDists : List Defect → List (String × Nat) → List (String × Nat) →
    Option (List (String × Nat) × List (String × Nat))
  | [], cd, sd => some (cd, sd)
  | d :: ds, cd, sd =>
    match bumpKey d.severity sd with
    | none => none
    | some sd2 => tallyDists ds (bumpOrInsert d.category cd) sd2

/-- The two-argument `generate_recommendations(category_dist, severity_dist)`
of app.py line 636, textually right above `analyze_defects`.  The source
indexes `severity_dist` directly (`severity_dist['critical']`), total in
every reachable call because `analyze_defects` always passes the
zero-initialised four-key dict; `dictGet` models both that and the
`category_dist.get(c, 0)` reads.  NOTE: app.py later (line 1162) defines a
*second*, one-argument `generate_recommendations(defects)` at module
level, which rebinds the name — see `generate_recommendations_rebound`
below — so this two-argument version is unreachable at runtime. -/
def generate_recommendations (category_dist severity_dist : List (String × Nat)) : List String :=
  (if dictGet "critical" severity_dist > 0 then ["⚠️ URGENT: Address critical defects immediately for safety"] else []) ++
  (if dictGet "high" severity_dist > 0 then ["🔴 HIGH: Schedule professional inspection for major defects"] else []) ++
  (if dictGet "structural" category_dist > 0 then ["🏗️ Structural: Consult structural engineer for assessment"] else []) ++
  (if dictGet "moisture" category_dist > 0 then ["💧 Moisture: Investigate sources and improve ventilation"] else []) ++
  (if dictGet "electrical" category_dist > 0 then ["⚡ Electrical: Have qualified electrician inspect wiring"] else []) ++
  (if dictGet "safety" category_dist > 0 then ["🛡️ Safety: Address safety hazards as priority"] else []) ++
  ["📋 Document all repairs and maintain regular inspection schedule",
   "💰 Budget for medium/low priority items in maintenance plan"]

/-- The one-argument `generate_recommendations(defects)` that app.py
defines at line 1162.  Both definitions execute at module level, so this
later one rebinds the module-global name: after import, every lookup of
`generate_recommendations` — including the one inside `analyze_defects` —
resolves to this function. -/
def generate_recommendations_rebound (defects : List Defect) : List String :=
  let categories := defects.foldl (fun cats d => bumpOrInsert d.category cats) []
  (if dictGet "structural" categories > 0 then ["Schedule structural engineer inspection for foundation and load-bearing elements"] else []) ++
  (if dictGet "electrical" categories > 0 then ["Arrange certified electrician evaluation for electrical safety compliance"] else []) ++
  (if dictGet "plumbing" categories > 0 then ["Contact licensed plumber for water system and drainage assessment"] else []) ++
  (if dictGet "hvac" categories > 0 then ["Schedule HVAC technician service for heating and cooling system maintenance"] else []) ++
  (if dictGet "safety" categories > 0 then ["Address safety hazards immediately to prevent accidents and ensure compliance"] else []) ++
  (if dictGet "cosmetic" categories > 0 then ["Plan cosmetic repairs to maintain property value and appearance"] else []) ++
  (if defects.length > 5 then ["Consider comprehensive building inspection due to multiple defects identified"] else [])

set_option linter.unusedVariables false in
/-- The call `generate_recommendations(category_dist, severity_dist)` at
app.py line 626 as it actually executes: the name resolves (at call time)
to the one-argument `generate_recommendations_rebound`, so calling it with
two arguments raises `TypeError` and never produces a value — modelled as
`none`. -/
def rebound_recommendations_call (category_dist severity_dist : List (String × Nat)) :
    Option (List String) :=
  none

/-- The function `analyze_defects` of `app.py` as it actually runs.  The
empty-input branch returns — with literally empty `category_distribution`,
`severity_distribution` and `recommendations` — before any recommendations
call.  The non-empty branch tallies the distributions, builds the priority
list, and then reaches the line-626 call, which raises `TypeError`
(`rebound_recommendations_call`): no call on a non-empty defect list ever
returns an `AnalysisResult`. -/
def analyze_defects (defects : List Defect) : Option AnalysisResult :=
  if defects.isEmpty then
    some { total_defects := 0, category_distribution := [], severity_distribution := [],
           priority_defects := [], recommendations := [] }
  else
    (tallyDists defects [] initial_severity_dist).bind (fun cs =>
      (rebound_recommendations_call cs.1 cs.2).map (fun recs =>
        { total_defects := defects.length
          category_distribution := cs.1
          severity_distribution := cs.2
          priority_defects := (defects.filter (fun d =>
              (d.severity == "high" || d.severity == "critical") &&
                decide (d.confidence > 7/10))).take 5
          recommendations := recs }))

/-- Aggregation as the spec's §4.8 and claims C7/C8 intend it: the body of
`analyze_defects` with its recommendations call resolved to the
two-argument `generate_recommendations` written directly above it at line
636 — the callee the source text names, made unreachable at runtime by the
line-1162 rebinding (a defect of the code, not of the spec). -/
def analyze_defects_intended (defects : List Defect) : Option AnalysisResult :=
  if defects.isEmpty then
    some { total_defects := 0, category_distribution := [], severity_distribution := [],
           priority_defects := [], recommendations := [] }
  else
    (tallyDists defects [] initial_severity_dist).map (fun cs =>
      { total_defects := defects.length
        category_distribution := cs.1
        severity_distribution := cs.2
        priority_defects := (defects.filter (fun d =>
            (d.severity == "high" || d.severity == "critical") &&
              decide (d.confidence > 7/10))).take 5
        recommendations := generate_recommendations cs.1 cs.2 })

/-! ### `analyze_defects` of `app_simple.py` (lines 94-123) -/

structure SimpleAnalysisResult where
  total_defects : Nat
  category_distribution : List (String × Nat)
  severity_distribution : List (String × Nat)
  recommendations : List String
deriving DecidableEq, Repr

namespace AppSimple

/-- The function `analyze_defects` of `app_simple.py`: its empty-input branch returns
the zero-filled four-key severity distribution and the single
"No defects detected" recommendation, and its result has no
`priority_defects` field at all.  (Its defect dicts carry no
`keyword_matched` entry; reusing `Defect` is harmless since only
`category`, `severity` and the length are read.) -/
def analyze_defects (defects : List Defect) : Option SimpleAnalysisResult :=
  if defects.isEmpty then
    some { total_defects := 0, category_distribution := [],
           severity_distribution := [("low", 0), ("medium", 0), ("high", 0), ("critical", 0)],
           recommendations := ["No defects detected"] }
  else
    (tallyDists defects [] initial_severity_dist).map (fun cs =>
      { total_defects := defects.length
        category_distribution := cs.1
        severity_distribution := cs.2
        recommendations :=
          ["Found " ++ toString defects.length ++ " defects requiring attention",
           "Review high and critical priority items first",
           "Schedule professional inspection for structural issues",
           "Document all findings for maintenance planning"] })

end AppSimple

/-! ### Claim-comparison definitions and concrete witness data -/

/-- The keyword list of one severity label, as stored in `SEVERITY_KEYWORDS`. -/
def severityKeywordsFor (label : String) : List String :=
  match SEVERITY_KEYWORDS.find? (fun sk => sk.1 == label) with
  | some sk => sk.2
  | none => []

/-- The selection step of `determine_severity` over the four already-computed
tallies (definitionally equal to the body of `determine_severity` after the
table maps are reduced). -/
def detSel (c h m lo : ℕ) : String :=
  let scores := [("critical", c), ("high", h), ("medium", m), ("low", lo)]
  let maxScore := (scores.map (fun ls => ls.2)).foldr max 0
  if maxScore == 0 then "medium"
  else
    match scores.find? (fun ls => ls.2 == maxScore) with
    | some ls => ls.1
    | none => "medium"

/-- The severity rule exactly as the claim words it: maximum tally wins,
ties broken in the fixed priority order critical > high > medium > low,
`"medium"` when all tallies are zero; the critical tally carries the +2
critical-indicator bonus. -/
def severity_claim (sentence : Str) : String :=
  let s := lower sentence
  let c := score_for s (severityKeywordsFor "critical") +
    (if critical_indicators.any (fun ind => containsSub s (lit ind)) then 2 else 0)
  let h := score_for s (severityKeywordsFor "high")
  let m := score_for s (severityKeywordsFor "medium")
  let lo := score_for s (severityKeywordsFor "low")
  if c = 0 ∧ h = 0 ∧ m = 0 ∧ lo = 0 then "medium"
  else if c ≥ h ∧ c ≥ m ∧ c ≥ lo then "critical"
  else if h ≥ m ∧ h ≥ lo then "high"
  else if m ≥ lo then "medium"
  else "low"

/-- The per-sentence classifier as the claim words it: for each category,
the *first* keyword of the category's list found in the sentence yields the
single candidate of that category.  (Modelled from the claim, for
comparison with `classifySentence`.) -/
def classify_first_match (s : Str) : List Defect :=
  DEFECT_CATEGORIES.filterMap (fun ck =>
    (ck.2.find? (fun kw => containsSub (lower s) (lit kw))).map
      (fun kw => ⟨ck.1, determine_severity (lower s), s, extract_location_enhanced s,
                  calculate_confidence_enhanced (lower s) kw ck.1, kw⟩))

/-- Deduplication as the claim words it: walk the defects in original order
and discard a defect exactly when the Jaccard similarity of its normalized
description key with the key of some previously *accepted* defect exceeds
0.8.  (Modelled from the claim, for comparison with `deduplicate_defects`.) -/
def deduplicate_claim (acc : List Defect) : List Defect → List Defect
  | [] => []
  | d :: ds =>
    if acc.any (fun e => calculate_similarity (normalize_description d.description)
        (normalize_description e.description) > 8/10) then
      deduplicate_claim acc ds
    else d :: deduplicate_claim (d :: acc) ds

def C7_witness_input : List Defect :=
  [⟨"structural", "high", lit "crack found", lit "Basement", 4/5, "crack"⟩]

def C7_witness_result : AnalysisResult :=
  { total_defects := 1, category_distribution := [("structural", 1)],
    severity_distribution := [("low", 0), ("medium", 0), ("high", 1), ("critical", 0)],
    priority_defects := [⟨"structural", "high", lit "crack found", lit "Basement", 4/5, "crack"⟩],
    recommendations := ["🔴 HIGH: Schedule professional inspection for major defects",
      "🏗️ Structural: Consult structural engineer for assessment",
      "📋 Document all repairs and maintain regular inspection schedule",
      "💰 Budget for medium/low priority items in maintenance plan"] }

def C8_witness_input : List Defect :=
  [⟨"moisture", "critical", lit "severe leak", lit "Roof", 9/10, "leak"⟩]

def C8_witness_result : AnalysisResult :=
  { total_defects := 1, category_distribution := [("moisture", 1)],
    severity_distribution := [("low", 0), ("medium", 0), ("high", 0), ("critical", 1)],
    priority_defects := [⟨"moisture", "critical", lit "severe leak", lit "Roof", 9/10, "leak"⟩],
    recommendations := ["⚠️ URGENT: Address critical defects immediately for safety",
      "💧 Moisture: Investigate sources and improve ventilation",
      "📋 Document all repairs and maintain regular inspection schedule",
      "💰 Budget for medium/low priority items in maintenance plan"] }

/-! ## Concrete evaluations

`Batteries` marks the `Rat` arithmetic operations `@[irreducible]`; the
concrete runs of the pipeline below need them to reduce. -/

attribute [local semireducible] Rat.add Rat.mul Rat.inv Rat.sub


/-! ## Claim C3: characterisation of `determine_severity` -/

theorem determine_severity_eq_detSel (sentence : Str) :
    determine_severity sentence =
      detSel
        (score_for (lower sentence) (severityKeywordsFor "critical") +
          (if critical_indicators.any (fun ind => containsSub (lower sentence) (lit ind)) then 2 else 0))
        (score_for (lower sentence) (severityKeywordsFor "high"))
        (score_for (lower sentence) (severityKeywordsFor "medium"))
        (score_for (lower sentence) (severityKeywordsFor "low")) := rfl

theorem detSel_eq_priority_order (c h m lo : ℕ) :
    detSel c h m lo =
      (if c = 0 ∧ h = 0 ∧ m = 0 ∧ lo = 0 then "medium"
       else if c ≥ h ∧ c ≥ m ∧ c ≥ lo then "critical"
       else if h ≥ m ∧ h ≥ lo then "high"
       else if m ≥ lo then "medium"
       else "low") := by
  simp only [detSel, List.map_cons, List.map_nil, List.foldr_cons, List.foldr_nil]
  generalize hM : c ⊔ (h ⊔ (m ⊔ (lo ⊔ 0))) = M
  by_cases h0 : M = 0
  · have hz : c = 0 ∧ h = 0 ∧ m = 0 ∧ lo = 0 := by omega
    simp [h0, hz]
  · have h0f : (M == 0) = false := beq_eq_false_iff_ne.mpr h0
    by_cases hc : c = M
    · have hct : (c == M) = true := beq_iff_eq.mpr hc
      have h2 : c ≥ h ∧ c ≥ m ∧ c ≥ lo := by omega
      have hc0 : ¬ c = 0 := by omega
      simp [h0f, hct, h2, hc0, List.find?]
    · have hcf : (c == M) = false := beq_eq_false_iff_ne.mpr hc
      by_cases hh : h = M
      · have hht : (h == M) = true := beq_iff_eq.mpr hh
        have h2 : ¬ (c ≥ h ∧ c ≥ m ∧ c ≥ lo) := by omega
        have h3 : h ≥ m ∧ h ≥ lo := by omega
        have hh0 : ¬ h = 0 := by omega
        simp [h0f, hcf, hht, h2, h3, hh0, List.find?]
      · have hhf : (h == M) = false := beq_eq_false_iff_ne.mpr hh
        by_cases hm : m = M
        · have hmt : (m == M) = true := beq_iff_eq.mpr hm
          have h2 : ¬ (c ≥ h ∧ c ≥ m ∧ c ≥ lo) := by omega
          have h3 : ¬ (h ≥ m ∧ h ≥ lo) := by omega
          have h4 : m ≥ lo := by omega
          have hm0 : ¬ m = 0 := by omega
          simp [h0f, hcf, hhf, hmt, h2, h3, h4, hm0, List.find?]
        · have hmf : (m == M) = false := beq_eq_false_iff_ne.mpr hm
          have hlo : lo = M := by omega
          have hlt : (lo == M) = true := beq_iff_eq.mpr hlo
          have h2 : ¬ (c ≥ h ∧ c ≥ m ∧ c ≥ lo) := by omega
          have h3 : ¬ (h ≥ m ∧ h ≥ lo) := by omega
          have h4 : ¬ (m ≥ lo) := by omega
          have hl0 : ¬ lo = 0 := by omega
          simp [h0f, hcf, hhf, hmf, hlt, h2, h3, h4, hl0, List.find?]

/-- C3: for every input string, `determine_severity` tallies severity-keyword
substring matches per label (with the +2 critical-indicator bonus), returns
the label of the maximum tally with ties broken in the fixed priority order
critical > high > medium > low, returns "medium" when all tallies are zero,
and its result is always exactly one of the four labels. -/
theorem C3_determine_severity_characterisation (sentence : Str) :
    determine_severity sentence = severity_claim sentence ∧
    determine_severity sentence ∈ (["critical", "high", "medium", "low"] : List String) := by
  have hdet := determine_severity_eq_detSel sentence
  have hsel := detSel_eq_priority_order
    (score_for (lower sentence) (severityKeywordsFor "critical") +
      (if critical_indicators.any (fun ind => containsSub (lower sentence) (lit ind)) then 2 else 0))
    (score_for (lower sentence) (severityKeywordsFor "high"))
    (score_for (lower sentence) (severityKeywordsFor "medium"))
    (score_for (lower sentence) (severityKeywordsFor "low"))
  constructor
  · rw [hdet, hsel]; rfl
  · rw [hdet, hsel]
    split_ifs <;> simp

/-! ## Claims C2 and C10: confidence bounds and keyword-independence -/

theorem calculate_confidence_enhanced_bounds (s : Str) (k c : String) :
    2/5 ≤ calculate_confidence_enhanced s k c ∧ calculate_confidence_enhanced s k c ≤ 95/100 := by
  have hA : (0:ℚ) ≤ min ((((categoryKeywords c).filter (fun kw => containsSub s (lit kw))).length : ℚ) * (8/100)) (25/100) :=
    le_min (by positivity) (by norm_num)
  simp only [calculate_confidence_enhanced]
  constructor
  · refine le_min ?_ (by norm_num)
    refine le_add_of_le_of_nonneg (le_add_of_le_of_nonneg (le_add_of_le_of_nonneg
      (le_add_of_le_of_nonneg (le_add_of_nonneg_right hA) ?_) ?_) ?_) ?_
    · split <;> norm_num
    · split <;> norm_num
    · split <;> norm_num
    · split <;> norm_num
  · exact min_le_right _ _

/-- The keyword loop always emits on the first matching keyword (the
low-confidence `continue` is unreachable, since the scorer never goes
below 0.4). -/
theorem scanKeywords_eq (s : Str) (c : String) (kws : List String) :
    scanKeywords s c kws =
      (kws.find? (fun kw => containsSub (lower s) (lit kw))).map
        (fun kw => ⟨c, determine_severity (lower s), s, extract_location_enhanced s,
                    calculate_confidence_enhanced (lower s) kw c, kw⟩) := by
  induction kws with
  | nil => rfl
  | cons kw rest ih =>
    simp only [scanKeywords]
    by_cases hm : containsSub (lower s) (lit kw) = true
    · rw [if_pos hm]
      rw [if_neg (not_lt.mpr (calculate_confidence_enhanced_bounds (lower s) kw c).1)]
      have hf : List.find? (fun kw => containsSub (lower s) (lit kw)) (kw :: rest) = some kw :=
        List.find?_cons_of_pos _ hm
      rw [hf]
      rfl
    · rw [if_neg hm]
      have hf : List.find? (fun kw => containsSub (lower s) (lit kw)) (kw :: rest) =
          List.find? (fun kw => containsSub (lower s) (lit kw)) rest :=
        List.find?_cons_of_neg _ hm
      rw [hf]
      exact ih

theorem scanKeywords_some_fields {s : Str} {c : String} {kws : List String} {d : Defect}
    (h : scanKeywords s c kws = some d) :
    d.category = c ∧ d.confidence = calculate_confidence_enhanced (lower s) d.keyword_matched c := by
  rw [scanKeywords_eq] at h
  obtain ⟨kw, _, hkw⟩ := Option.map_eq_some'.mp h
  rw [← hkw]
  exact ⟨rfl, rfl⟩

theorem dedupGo_sublist (seen : List Str) (l : List Defect) : (dedupGo seen l).Sublist l := by
  induction l generalizing seen with
  | nil => simp [dedupGo]
  | cons d rest ih =>
    simp only [dedupGo]
    split
    · exact (ih seen).cons d
    · exact (ih _).cons₂ d

theorem deduplicate_defects_sublist (l : List Defect) : (deduplicate_defects l).Sublist l := by
  simp only [deduplicate_defects]
  split
  · exact List.Sublist.refl l
  · exact dedupGo_sublist [] l

theorem processSentences_mem {d : Defect} :
    ∀ {sentences : List Str} {processed : List Str},
      d ∈ processSentences processed sentences → ∃ s, d ∈ classifySentence s := by
  intro sentences
  induction sentences with
  | nil => intro processed h; simp [processSentences] at h
  | cons sentence rest ih =>
    intro processed h
    simp only [processSentences] at h
    split at h
    · exact ih h
    · split at h
      · exact ih h
      · rcases List.mem_append.mp h with hc | hr
        · exact ⟨_, hc⟩
        · exact ih hr

/-! ## Claims C5 and C6: deduplication -/

theorem dedupGo_idem (l : List Defect) :
    ∀ seen : List Str, dedupGo seen (dedupGo seen l) = dedupGo seen l := by
  induction l with
  | nil => intro seen; rfl
  | cons d rest ih =>
    intro seen
    by_cases hdup : (seen.any (fun seen_desc =>
        calculate_similarity (normalize_description d.description) seen_desc > 8/10)) = true
    · simp only [dedupGo, if_pos hdup]
      exact ih seen
    · simp only [dedupGo, if_neg hdup]
      rw [ih]

theorem anyMapAux {α β : Type} (f : α → β) (p : β → Bool) :
    ∀ l : List α, (l.map f).any p = l.any (fun a => p (f a)) := by
  intro l
  induction l with
  | nil => rfl
  | cons x xs ih => simp only [List.map_cons, List.any_cons, ih]

theorem dedupGo_eq_claim (l : List Defect) :
    ∀ (seen : List Str) (acc : List Defect),
      seen = acc.map (fun e => normalize_description e.description) →
      dedupGo seen l = deduplicate_claim acc l := by
  induction l with
  | nil => intro seen acc _; rfl
  | cons d rest ih =>
    intro seen acc hseen
    have hany : (seen.any (fun seen_desc =>
        calculate_similarity (normalize_description d.description) seen_desc > 8/10)) =
        (acc.any (fun e => calculate_similarity (normalize_description d.description)
          (normalize_description e.description) > 8/10)) := by
      subst hseen
      exact anyMapAux _ _ acc
    simp only [dedupGo, deduplicate_claim, hany]
    split
    · exact ih seen acc hseen
    · rw [ih (normalize_description d.description :: seen) (d :: acc)
        (by rw [hseen, List.map_cons])]

/-- C5: deduplication is idempotent — applying `deduplicate_defects` to its
own output returns that output unchanged. -/
theorem C5_deduplicate_idempotent (l : List Defect) :
    deduplicate_defects (deduplicate_defects l) = deduplicate_defects l := by
  rcases l with _ | ⟨d, rest⟩
  · rfl
  · simp only [deduplicate_defects, List.isEmpty_cons, Bool.false_eq_true, if_false]
    split
    · rfl
    · exact dedupGo_idem _ _

/-- C6: `deduplicate_defects` is an order-preserving subset (a sublist) of
its input, and it equals the claim's algorithm: a defect is discarded
exactly when the Jaccard similarity of its normalized key with the key of
some previously accepted defect exceeds 0.8, and accepted otherwise. -/
theorem C6_dedup_order_preserving_refinement (l : List Defect) :
    (deduplicate_defects l).Sublist l ∧ deduplicate_defects l = deduplicate_claim [] l := by
  refine ⟨deduplicate_defects_sublist l, ?_⟩
  simp only [deduplicate_defects]
  split
  · rename_i h
    rw [List.isEmpty_iff.mp h]
    rfl
  · exact dedupGo_eq_claim l [] [] rfl

/-- C2: the enhanced confidence scorer always returns a value in the closed
interval [0.4, 0.95] (so it never reaches 1.0), and no defect with
confidence below 0.4 ever appears in the final list produced by rule-based
detection. -/
theorem C2_confidence_range_and_floor :
    (∀ (s : Str) (k c : String),
        2/5 ≤ calculate_confidence_enhanced s k c ∧ calculate_confidence_enhanced s k c ≤ 95/100) ∧
    (∀ (text : Str) (d : Defect), d ∈ detect_defects_rule_based text → ¬ (d.confidence < 2/5)) := by
  refine ⟨calculate_confidence_enhanced_bounds, ?_⟩
  intro text d hd
  have hp : d ∈ processSentences [] (splitSentences (filter_summary_sections text)) :=
    (deduplicate_defects_sublist _).subset hd
  obtain ⟨s, hs⟩ := processSentences_mem hp
  obtain ⟨ck, _, hscan⟩ := List.mem_filterMap.mp hs
  obtain ⟨_, hconf⟩ := scanKeywords_some_fields hscan
  rw [hconf]
  exact not_lt.mpr (calculate_confidence_enhanced_bounds _ _ _).1

theorem C2_confidence_range_and_floor_witness :
    ¬ ((⟨"structural", "critical",
        lit "Foundation crack in basement wall is critical and urgent",
        lit "Basement", 21/25, "crack"⟩ : Defect).confidence < 2/5) := by
  refine C2_confidence_range_and_floor.2
    (lit "Foundation crack in basement wall is critical and urgent.") _ ?_
  have h : detect_defects_rule_based
      (lit "Foundation crack in basement wall is critical and urgent.") =
      [⟨"structural", "critical",
        lit "Foundation crack in basement wall is critical and urgent",
        lit "Basement", 21/25, "crack"⟩] := by decide
  rw [h]
  exact List.mem_singleton.mpr rfl

/-- C10: the enhanced confidence score is independent of which keyword
triggered the classification — the `keyword` argument is ignored, the
density factor recounting the whole category keyword list instead. -/
theorem C10_confidence_keyword_independent :
    ∀ (sentence : Str) (k1 k2 category : String),
      calculate_confidence_enhanced sentence k1 category =
        calculate_confidence_enhanced sentence k2 category :=
  fun _ _ _ _ => rfl

/-! ## Claim C4: one candidate per category per sentence -/

theorem classify_count_le_one (s : Str) (c : String) :
    ∀ L : List (String × List String), (L.map Prod.fst).Nodup →
      ((L.filterMap (fun ck => scanKeywords s ck.1 ck.2)).filter
        (fun d => d.category == c)).length ≤ 1 := by
  intro L
  induction L with
  | nil => intro _; simp
  | cons ck L ih =>
    intro hnd
    rw [List.map_cons, List.nodup_cons] at hnd
    obtain ⟨hnotin, hnd2⟩ := hnd
    rw [List.filterMap_cons]
    cases hscan : scanKeywords s ck.1 ck.2 with
    | none => exact ih hnd2
    | some d =>
      have hcat : d.category = ck.1 := (scanKeywords_some_fields hscan).1
      rw [List.filter_cons]
      by_cases hdc : (d.category == c) = true
      · rw [if_pos hdc]
        have hdc2 : d.category = c := beq_iff_eq.mp hdc
        have hcc : c = ck.1 := by rw [← hdc2, hcat]
        have hnil : (L.filterMap (fun ck => scanKeywords s ck.1 ck.2)).filter
            (fun d => d.category == c) = [] := by
          rw [List.filter_eq_nil_iff]
          intro e he
          obtain ⟨ck2, hck2, hscan2⟩ := List.mem_filterMap.mp he
          have hcat2 : e.category = ck2.1 := (scanKeywords_some_fields hscan2).1
          intro hec
          apply hnotin
          rw [← hcc, ← beq_iff_eq.mp hec, hcat2]
          exact List.mem_map.mpr ⟨ck2, hck2, rfl⟩
        rw [hnil]
        simp
      · rw [if_neg hdc]
        exact ih hnd2

/-- C4: for every sentence, the rule-based classifier emits at most one
candidate per category, the candidate of a category comes from the first
matching keyword of that category's list, and a single sentence can still
yield candidates in several distinct categories (witnessed by a sentence
that triggers both "structural" and "moisture"). -/
theorem C4_at_most_one_candidate_per_category :
    (∀ (s : Str) (c : String),
        ((classifySentence s).filter (fun d => d.category == c)).length ≤ 1) ∧
    (∀ s : Str, classifySentence s = classify_first_match s) ∧
    (classifySentence (lit "There is a crack and damp damage in the kitchen zone")).map
        (fun d => d.category) = ["structural", "moisture"] := by
  refine ⟨?_, ?_, ?_⟩
  · intro s c
    exact classify_count_le_one s c DEFECT_CATEGORIES (by decide)
  · intro s
    simp only [classifySentence, classify_first_match, scanKeywords_eq]
  · decide

/-! ## Claim C9: the structural-defect scenario -/

/-- C9: on the input "Foundation crack in basement wall is critical and
urgent.", the rule-based pipeline yields a structural defect with severity
critical, a location containing "basement", and confidence above 0.4. -/
theorem C9_structural_scenario :
    ∃ d, d ∈ detect_defects_rule_based
        (lit "Foundation crack in basement wall is critical and urgent.") ∧
      d.category = "structural" ∧ d.severity = "critical" ∧
      containsSub (lower d.location) (lit "basement") = true ∧ d.confidence > 2/5 := by
  refine ⟨⟨"structural", "critical",
    lit "Foundation crack in basement wall is critical and urgent",
    lit "Basement", 21/25, "crack"⟩, by decide, rfl, rfl, by decide, by decide⟩

/-! ## Claim C1: aggregation of the empty defect list -/

/-- C1 (counterexample): in `app.py`, `analyze_defects([])` returns an
*empty* severity distribution (none of the four keys is present) and an
*empty* recommendation list — not the zero-filled four-key distribution and
the single informational recommendation the claim asserts. -/
theorem C1_empty_aggregation_counterexample :
    (analyze_defects []).map AnalysisResult.severity_distribution = some [] ∧
    (analyze_defects []).map AnalysisResult.recommendations = some [] := ⟨rfl, rfl⟩

/-- C1 (amended): `app.py`'s `analyze_defects([])` returns
`total_defects = 0`, empty category and severity distributions, an empty
priority list and *no* recommendations; the zero-filled four-key severity
distribution and the single "No defects detected" recommendation appear
only in `app_simple.py`'s aggregator, whose result has no
`priority_defects` field; and empty text yields no defects. -/
theorem C1_empty_aggregation :
    analyze_defects [] =
      some { total_defects := 0, category_distribution := [], severity_distribution := [],
             priority_defects := [], recommendations := [] } ∧
    AppSimple.analyze_defects [] =
      some { total_defects := 0, category_distribution := [],
             severity_distribution := [("low", 0), ("medium", 0), ("high", 0), ("critical", 0)],
             recommendations := ["No defects detected"] } ∧
    detect_defects_rule_based [] = [] := ⟨rfl, rfl, rfl⟩

/-! ## Claim C7: the priority-defect subset -/

/-- C7: under the intended aggregation (`analyze_defects_intended`, the
recommendations call resolved to the two-argument helper of line 636 as
the source text names it), every returned result has `priority_defects`
equal to the high/critical, confidence > 0.7 filter of the input truncated
to the first 5 — an order-preserving subset of length at most 5 whose
members all satisfy the criterion.  The shipped `analyze_defects` itself
can never exhibit this on a non-empty list: the line-1162 rebinding of
`generate_recommendations` makes it raise `TypeError`, shown here by its
returning `none` on the concrete one-defect input. -/
theorem C7_priority_defects :
    (∀ (defects : List Defect) (r : AnalysisResult),
      analyze_defects_intended defects = some r →
      r.priority_defects = (defects.filter (fun d =>
          (d.severity == "high" || d.severity == "critical") && decide (d.confidence > 7/10))).take 5 ∧
      r.priority_defects.Sublist defects ∧
      r.priority_defects.length ≤ 5 ∧
      ∀ d ∈ r.priority_defects, (d.severity = "high" ∨ d.severity = "critical") ∧ d.confidence > 7/10) ∧
    analyze_defects C7_witness_input = none := by
  constructor
  · intro defects r h
    have heq : r.priority_defects = (defects.filter (fun d =>
        (d.severity == "high" || d.severity == "critical") && decide (d.confidence > 7/10))).take 5 := by
      simp only [analyze_defects_intended] at h
      split at h
      · rename_i hemp
        rw [List.isEmpty_iff.mp hemp]
        injection h with h
        rw [← h]
        rfl
      · obtain ⟨cs, _, hr⟩ := Option.map_eq_some'.mp h
        rw [← hr]
    refine ⟨heq, ?_, ?_, ?_⟩
    · rw [heq]
      exact (List.take_sublist _ _).trans (List.filter_sublist _)
    · rw [heq]
      exact List.length_take_le _ _
    · intro d hd
      rw [heq] at hd
      have hdf := List.take_subset _ _ hd
      have hp := (List.mem_filter.mp hdf).2
      rw [Bool.and_eq_true, Bool.or_eq_true] at hp
      obtain ⟨hsev, hconf⟩ := hp
      refine ⟨?_, of_decide_eq_true hconf⟩
      rcases hsev with hs | hs
      · exact Or.inl (beq_iff_eq.mp hs)
      · exact Or.inr (beq_iff_eq.mp hs)
  · rfl

theorem C7_priority_defects_witness :
    analyze_defects_intended C7_witness_input = some C7_witness_result ∧
    C7_witness_result.priority_defects.length ≤ 5 ∧
    C7_witness_result.priority_defects.Sublist C7_witness_input :=
  ⟨by decide, (C7_priority_defects.1 C7_witness_input C7_witness_result (by decide)).2.2.1,
    (C7_priority_defects.1 C7_witness_input C7_witness_result (by decide)).2.1⟩

/-! ## Claim C8: the distributions sum to the total -/

theorem bumpOrInsert_sum (k : String) (d : List (String × Nat)) :
    ((bumpOrInsert k d).map Prod.snd).sum = (d.map Prod.snd).sum + 1 := by
  induction d with
  | nil => simp [bumpOrInsert]
  | cons kv rest ih =>
    simp only [bumpOrInsert]
    split
    · simp only [List.map_cons, List.sum_cons]
      omega
    · simp only [List.map_cons, List.sum_cons, ih]
      omega

theorem bumpKey_sum (k : String) :
    ∀ (d d2 : List (String × Nat)), bumpKey k d = some d2 →
      (d2.map Prod.snd).sum = (d.map Prod.snd).sum + 1 := by
  intro d
  induction d with
  | nil => intro d2 h; simp [bumpKey] at h
  | cons kv rest ih =>
    intro d2 h
    simp only [bumpKey] at h
    split at h
    · injection h with h
      rw [← h]
      simp only [List.map_cons, List.sum_cons]
      omega
    · obtain ⟨r, hr, hd2⟩ := Option.map_eq_some'.mp h
      rw [← hd2]
      simp only [List.map_cons, List.sum_cons, ih r hr]
      omega

theorem tallyDists_sums :
    ∀ (ds : List Defect) (cd sd cd2 sd2 : List (String × Nat)),
      tallyDists ds cd sd = some (cd2, sd2) →
      (cd2.map Prod.snd).sum = (cd.map Prod.snd).sum + ds.length ∧
      (sd2.map Prod.snd).sum = (sd.map Prod.snd).sum + ds.length := by
  intro ds
  induction ds with
  | nil =>
    intro cd sd cd2 sd2 h
    simp only [tallyDists, Option.some.injEq, Prod.mk.injEq] at h
    obtain ⟨h1, h2⟩ := h
    subst h1
    subst h2
    simp
  | cons d rest ih =>
    intro cd sd cd2 sd2 h
    simp only [tallyDists] at h
    cases hb : bumpKey d.severity sd with
    | none => rw [hb] at h; cases h
    | some sd3 =>
      rw [hb] at h
      obtain ⟨h1, h2⟩ := ih _ _ _ _ h
      constructor
      · rw [h1, bumpOrInsert_sum]
        simp only [List.length_cons]
        omega
      · rw [h2, bumpKey_sum _ _ _ hb]
        simp only [List.length_cons]
        omega

/-- C8: whenever the intended aggregation (`analyze_defects_intended`,
with the line-636 two-argument recommendations helper) returns a result,
both the category distribution and the severity distribution sum to
`total_defects` — every defect is counted exactly once in each.  (On a
defect whose severity lies outside the four fixed labels the source raises
`KeyError`, which the `some` hypothesis models.)  The shipped
`analyze_defects` itself never completes a non-empty run at all — the
line-1162 rebinding of `generate_recommendations` raises `TypeError` — as
its `none` value on the concrete one-defect input shows. -/
theorem C8_distributions_sum :
    (∀ (defects : List Defect) (r : AnalysisResult),
      analyze_defects_intended defects = some r →
      (r.category_distribution.map Prod.snd).sum = r.total_defects ∧
      (r.severity_distribution.map Prod.snd).sum = r.total_defects) ∧
    analyze_defects C8_witness_input = none := by
  constructor
  · intro defects r h
    simp only [analyze_defects_intended] at h
    split at h
    · injection h with h
      rw [← h]
      exact ⟨rfl, rfl⟩
    · obtain ⟨cs, hcs, hr⟩ := Option.map_eq_some'.mp h
      rw [← @Prod.mk.eta _ _ cs] at hcs
      obtain ⟨h1, h2⟩ := tallyDists_sums defects [] initial_severity_dist cs.1 cs.2 hcs
      rw [← hr]
      constructor
      · show (cs.1.map Prod.snd).sum = defects.length
        rw [h1]
        simp
      · show (cs.2.map Prod.snd).sum = defects.length
        rw [h2]
        simp [initial_severity_dist]
  · rfl

theorem C8_distributions_sum_witness :
    analyze_defects_intended C8_witness_input = some C8_witness_result ∧
    (C8_witness_result.category_distribution.map Prod.snd).sum = C8_witness_result.total_defects ∧
    (C8_witness_result.severity_distribution.map Prod.snd).sum = C8_witness_result.total_defects :=
  ⟨by decide, (C8_distributions_sum.1 C8_witness_input C8_witness_result (by decide)).1,
    (C8_distributions_sum.1 C8_witness_input C8_witness_result (by decide)).2⟩
